import Mathlib

/-!
Verification of the CosmosDownload satellite-image downloader
(`SpaceDownloaderEnglish.py`) against its natural-language specification.

The geometry calculation (source lines 84-99) is embedded over the real
numbers: Python floats are idealized as elements of `ℝ`, `math.cos` as
`Real.cos`, `math.radians` as multiplication by `π / 180`, and Python's
`int(...)` conversion as truncation toward zero.  Python raises
`ZeroDivisionError` on float division by zero; the program model `run`
below checks the divisor explicitly at the point of the division, so the
total Lean `/` is only relied upon with a nonzero divisor.
-/

/-- A parsed bounding box, the four floats obtained from splitting the
`-B` argument on commas: `(lng0, lat0, lng1, lat1)` (source line 59). -/
structure Box where
  lng0 : ℝ
  lat0 : ℝ
  lng1 : ℝ
  lat1 : ℝ

/-- Source line 84: `lat_diff = BOX[3] - BOX[1]`. -/
noncomputable def lat_diff (b : Box) : ℝ := b.lat1 - b.lat0

/-- Source line 85: `lng_diff = BOX[2] - BOX[0]`. -/
noncomputable def lng_diff (b : Box) : ℝ := b.lng1 - b.lng0

/-- Source line 86: `avg_lat = (BOX[1] + BOX[3]) / 2`. -/
noncomputable def avg_lat (b : Box) : ℝ := (b.lat0 + b.lat1) / 2

/-- Python's `math.radians`: degrees to radians. -/
noncomputable def radians (x : ℝ) : ℝ := x * Real.pi / 180

/-- Source line 87: `lat_distance = lat_diff * 111`. -/
noncomputable def lat_distance (b : Box) : ℝ := lat_diff b * 111

/-- Source line 88: `lng_distance = lng_diff * 111 * math.cos(math.radians(avg_lat))`. -/
noncomputable def lng_distance (b : Box) : ℝ :=
  lng_diff b * 111 * Real.cos (radians (avg_lat b))

/-- Source line 89: `aspect_ratio = lng_distance / lat_distance`.
(When `lat_distance = 0` Python raises `ZeroDivisionError`; that case is
modelled in `run`, and here the Lean convention `x / 0 = 0` is never
relied upon.) -/
noncomputable def aspect_ratio (b : Box) : ℝ := lng_distance b / lat_distance b

/-- Python's `int(x)` on a float: truncation toward zero. -/
noncomputable def pytrunc (x : ℝ) : ℤ := if 0 ≤ x then ⌊x⌋ else ⌈x⌉

/-- Source line 92: `width = int(HEIGHT * aspect_ratio)` — the width before
the maximum-width clamp. -/
noncomputable def widthPre (b : Box) (h : ℤ) : ℤ :=
  pytrunc ((h : ℝ) * aspect_ratio b)

/-- Source lines 92-98: the final value of the `width` variable after the
`MAX_WIDTH = 2500` clamp. -/
noncomputable def finalWidth (b : Box) (h : ℤ) : ℤ :=
  if 2500 < widthPre b h then 2500 else widthPre b h

/-- Source lines 93-99: the final value of the `height` variable: `HEIGHT`
unless the clamp fired, in which case `int(width / aspect_ratio)` with
`width = 2500`. -/
noncomputable def finalHeight (b : Box) (h : ℤ) : ℤ :=
  if 2500 < widthPre b h then pytrunc ((2500 : ℝ) / aspect_ratio b) else h

/-- Modelled from the spec: `width = round(height × aspect ratio)`, read as
half-up/nearest rounding.  This is the specification-side definition used
to compare the spec's `round` with the code's `int` truncation. -/
noncomputable def roundHalfUp (x : ℝ) : ℤ := ⌊x + 1 / 2⌋

/-- The default bounding box over Prague, source line 24. -/
noncomputable def pragueBox : Box :=
  { lng0 := 15.0617, lat0 := 50.2856, lng1 := 15.2252, lat1 := 50.3378 }

/-- A valid but very thin box: latitude span 1 degree centred on the
equator, longitude span `10 ^ (-9)` degrees. -/
noncomputable def thinBox : Box :=
  { lng0 := 0, lat0 := -0.5, lng1 := 0.000000001, lat1 := 0.5 }

/-- A box with `lat1 > lat0` and `lng1 > lng0` whose mean latitude is 180
degrees, where the cosine correction is negative. -/
noncomputable def polarBox : Box :=
  { lng0 := 0, lat0 := 179.5, lng1 := 1, lat1 := 180.5 }

/-- A box of aspect ratio exactly `1 / 2` centred on the equator. -/
noncomputable def unitBox : Box :=
  { lng0 := 0, lat0 := -1, lng1 := 1, lat1 := 1 }

/-- A box of aspect ratio exactly `5000 / 1999` centred on the equator,
wide enough to trigger the maximum-width clamp at height `1001`. -/
noncomputable def wideBox : Box :=
  { lng0 := 0, lat0 := -0.9995, lng1 := 5, lat1 := 0.9995 }

/-- A box whose latitude span is reversed (`lat1 < lat0`) while the
longitude span is forward. -/
noncomputable def revLatBox : Box :=
  { lng0 := 0, lat0 := 0.5, lng1 := 1, lat1 := -0.5 }

/-- A box reversed on both axes (`lat1 < lat0` and `lng1 < lng0`). -/
noncomputable def bothRevBox : Box :=
  { lng0 := 1, lat0 := 0.5, lng1 := 0, lat1 := -0.5 }

/-- A degenerate box with `lat1 = lat0`. -/
noncomputable def degBox : Box :=
  { lng0 := 0, lat0 := 1, lng1 := 1, lat1 := 1 }

-- ISO-8601 serialization of UTC instants, used for the time-range filter.

/-- Left-pad the decimal rendering of `n` with zeros to `w` digits. -/
def padZeros (w : ℕ) (n : ℕ) : String :=
  let s := toString n
  if s.length < w then String.mk (List.replicate (w - s.length) '0') ++ s else s

/-- Modelled from the spec: the proleptic-Gregorian civil date
`(year, month, day)` of a day count relative to 1970-01-01, as used by
Python's `datetime` (not part of the repository source; needed to render
ISO-8601 date-times). -/
def civilFromDays (day : ℤ) : ℤ × ℕ × ℕ :=
  let z := day + 719468
  let era : ℤ := Int.fdiv z 146097
  let doe : ℕ := (z - era * 146097).toNat
  let yoe : ℕ := (doe - doe / 1460 + doe / 36524 - doe / 146096) / 365
  let y : ℤ := (yoe : ℤ) + era * 400
  let doy : ℕ := doe - (365 * yoe + yoe / 4 - yoe / 100)
  let mp : ℕ := (5 * doy + 2) / 153
  let d : ℕ := doy - (153 * mp + 2) / 5 + 1
  let m : ℕ := if mp < 10 then mp + 3 else mp - 9
  (if m ≤ 2 then y + 1 else y, m, d)

/-- Modelled from the spec: the date-time part of Python's
`datetime.isoformat()` for an aware UTC instant given in microseconds
since the epoch: `YYYY-MM-DDTHH:MM:SS`, with `.ffffff` appended when the
microsecond field is nonzero (not part of the repository source). -/
def isoBody (t : ℤ) : String :=
  let day : ℤ := Int.fdiv t 86400000000
  let micro : ℕ := (t - day * 86400000000).toNat
  let secOfDay : ℕ := micro / 1000000
  let us : ℕ := micro % 1000000
  let ymd := civilFromDays day
  padZeros 4 ymd.1.toNat ++ "-" ++ padZeros 2 ymd.2.1 ++ "-" ++ padZeros 2 ymd.2.2 ++
    "T" ++ padZeros 2 (secOfDay / 3600) ++ ":" ++ padZeros 2 (secOfDay % 3600 / 60) ++
    ":" ++ padZeros 2 (secOfDay % 60) ++
    (if us = 0 then "" else "." ++ padZeros 6 us)

/-- Modelled from the spec: `datetime.isoformat()` for an aware UTC
instant — the ISO-8601 date-time text followed by the UTC offset
`+00:00` (source lines 104-106 call it on `datetime.now(timezone.utc)`
values). -/
def isoformat (t : ℤ) : String := isoBody t ++ "+00:00"

-- The program, modelled as a pure function from its inputs and the
-- results of its environment interactions to the sequence of observable
-- effects it performs.

/-- The parsed command-line arguments (source lines 43-52), after the
assignments of lines 55-59.  The bounding box is already split and parsed
to floats; `jas` is the string rendering of the brightness float that the
f-string of line 60 interpolates. -/
structure Args where
  soubor : String
  vyska : ℤ
  box : Box
  format : String
  kvalita : ℤ
  evalscript : String
  jas : String
  ukaztoken : Bool

/-- The results the environment would return for each external
interaction: the custom-script file read (`none` when `open`/`read`
raises), the OAuth token entries, the imagery POST response, and the
current UTC time in microseconds since the epoch. -/
structure Oracle where
  readScript : Option String
  token : List (String × String)
  respStatus : ℕ
  respContent : List ℕ
  respText : String
  nowMicros : ℤ

/-- The JSON payload of the imagery POST (source lines 112-147). -/
structure RequestParams where
  bbox : List ℝ
  satType : String
  timeFrom : String
  timeTo : String
  upsampling : String
  downsampling : String
  width : ℤ
  height : ℤ
  identifier : String
  format : String
  quality : ℤ
  evalscript : String

/-- One observable effect of the program; each constructor corresponds to
one statement of the source. -/
inductive Event
  /-- The two guidance prints of lines 14-15 (missing credentials). -/
  | printGuidance
  /-- The attempt to open the custom evalscript file (line 65). -/
  | openScript (path : String)
  /-- The fallback warning `Cannot read evalscript ... Using default` (line 68). -/
  | printScriptWarning (path : String)
  /-- The OAuth token exchange (line 73), the first network call. -/
  | fetchToken
  /-- One `key: value` line of the token dump (lines 78-79). -/
  | printTokenEntry (key value : String)
  /-- The `Final image dimensions: WxH pixels` print (line 100). -/
  | printDimensions (w h : ℤ)
  /-- The uncaught `ZeroDivisionError` of line 89 when `lat_distance` is zero. -/
  | raiseZeroDivisionError
  /-- The imagery POST (line 152), the second network call. -/
  | imageryPost (params : RequestParams)
  /-- The `Saving image ...` print (line 154). -/
  | printSaving (name : String)
  /-- Opening the output file in mode `wb` (truncating any existing file)
  and writing the response body bytes to it (lines 155-156). -/
  | writeFile (name : String) (content : List ℕ)
  /-- The `An error occurred!` print with HTTP status and body text (line 158). -/
  | printHttpError (status : ℕ) (text : String)
  /-- `exit()` (lines 16 and 80). -/
  | exitProgram

/-- The built-in evalscript of source lines 29-41. -/
def defaultEvalscript : String :=
  "\n//VERSION=3\nfunction setup() \x7b\n  return \x7b\n    input: [\"B02\", \"B03\", \"B04\"],\n    output: \x7b bands: 3 \x7d,\n  \x7d\n\x7d\nfunction evaluatePixel(sample) \x7b\n  let exposure = 2;\n  return [sample.B04 * exposure, sample.B03 * exposure, sample.B02 * exposure];\n\x7d\n"

/-- Source line 60: the brightness substitution
`EVALSCRIPT.replace("let exposure = 2;", f"let exposure = {args.jas};")`. -/
def substitutedDefault (jas : String) : String :=
  defaultEvalscript.replace "let exposure = 2;" ("let exposure = " ++ jas ++ ";")

/-- Source lines 60-68: the evalscript that ends up in the request payload:
the contents of the custom file when its path is longer than one character
and the read succeeds, otherwise the built-in script with the brightness
substitution. -/
def effectiveScript (a : Args) (o : Oracle) : String :=
  let base := substitutedDefault a.jas
  if 1 < a.evalscript.length then
    match o.readScript with
    | some s => s
    | none => base
  else base

/-- The file-handling effects of source lines 63-68: the open attempt, and
the fallback warning when the read raises. -/
def scriptEvents (a : Args) (o : Oracle) : List Event :=
  if 1 < a.evalscript.length then
    match o.readScript with
    | some _ => [Event.openScript a.evalscript]
    | none => [Event.openScript a.evalscript, Event.printScriptWarning a.evalscript]
  else []

/-- Source lines 112-147: the JSON payload of the imagery POST, with the
time-range filter of lines 104-106 (`now - 7 days` to `now`, both
rendered by `isoformat`). -/
noncomputable def buildParams (a : Args) (o : Oracle) : RequestParams :=
  { bbox := [a.box.lng0, a.box.lat0, a.box.lng1, a.box.lat1]
    satType := "sentinel-2-l2a"
    timeFrom := isoformat (o.nowMicros - 7 * 86400000000)
    timeTo := isoformat o.nowMicros
    upsampling := "BILINEAR"
    downsampling := "BILINEAR"
    width := finalWidth a.box a.vyska
    height := finalHeight a.box a.vyska
    identifier := "default"
    format := a.format
    quality := a.kvalita
    evalscript := effectiveScript a o }

/-- The whole program after argument parsing, as the list of observable
effects it performs: the credentials check of lines 13-16, the evalscript
handling of lines 60-68, the token exchange of line 73, the token-dump
mode of lines 77-80, the geometry of lines 84-100 (raising
`ZeroDivisionError` when `lat_distance` is zero), and the POST and
response handling of lines 152-158. -/
noncomputable def run (cid cs : String) (a : Args) (o : Oracle) : List Event :=
  if cid.length = 0 ∨ cs.length = 0 then
    [Event.printGuidance, Event.exitProgram]
  else
    scriptEvents a o ++ [Event.fetchToken] ++
      (if a.ukaztoken then
        (o.token.map fun kv => Event.printTokenEntry kv.1 kv.2) ++ [Event.exitProgram]
      else if lat_distance a.box = 0 then
        [Event.raiseZeroDivisionError]
      else
        Event.printDimensions (finalWidth a.box a.vyska) (finalHeight a.box a.vyska) ::
          Event.imageryPost (buildParams a o) ::
            (if o.respStatus = 200 then
              [Event.printSaving a.soubor, Event.writeFile a.soubor o.respContent]
            else
              [Event.printHttpError o.respStatus o.respText]))

/-- A baseline argument record: the defaults of source lines 19-24
(no custom evalscript, brightness `2`, token-dump mode off). -/
noncomputable def baseArgs : Args :=
  { soubor := "image1.jpg", vyska := 512, box := pragueBox, format := "image/jpeg"
    kvalita := 90, evalscript := "", jas := "2", ukaztoken := false }

/-- A baseline oracle: unreadable script file, empty token, HTTP 200 with
a three-byte body. -/
def baseOracle : Oracle :=
  { readScript := none, token := [], respStatus := 200, respContent := [1, 2, 3]
    respText := "", nowMicros := 0 }

/-- Arguments with a one-character custom-evalscript path, in token-dump
mode. -/
noncomputable def oneCharArgs : Args :=
  { baseArgs with evalscript := "x", ukaztoken := true }

/-- Arguments with a two-character custom-evalscript path. -/
noncomputable def twoCharArgs : Args :=
  { baseArgs with evalscript := "ab" }

/-- Arguments whose bounding box is degenerate (`lat1 = lat0`). -/
noncomputable def degArgs : Args :=
  { baseArgs with box := degBox }

/-- An oracle whose custom-script file is readable and empty. -/
def emptyFileOracle : Oracle :=
  { baseOracle with readScript := some "" }

/-- An oracle whose imagery POST fails with HTTP 500. -/
def failOracle : Oracle :=
  { baseOracle with respStatus := 500, respText := "server error" }

-- Basic facts about `pytrunc`.

theorem pytrunc_of_nonneg {x : ℝ} (hx : 0 ≤ x) : pytrunc x = ⌊x⌋ := if_pos hx

theorem pytrunc_of_neg {x : ℝ} (hx : x < 0) : pytrunc x = ⌈x⌉ :=
  if_neg (not_le.mpr hx)

theorem pytrunc_nonneg {x : ℝ} (hx : 0 ≤ x) : 0 ≤ pytrunc x := by
  rw [pytrunc_of_nonneg hx]
  exact Int.floor_nonneg.mpr hx

theorem lt_of_lt_pytrunc {x : ℝ} {n : ℤ} (hn : 0 ≤ n) (h : n < pytrunc x) :
    (n : ℝ) < x := by
  by_cases hx : 0 ≤ x
  · rw [pytrunc_of_nonneg hx] at h
    have h1 : n + 1 ≤ ⌊x⌋ := h
    have h2 : ((n + 1 : ℤ) : ℝ) ≤ x := Int.le_floor.mp h1
    push_cast at h2
    linarith
  · rw [pytrunc_of_neg (not_le.mp hx)] at h
    have h3 : ⌈x⌉ ≤ 0 := Int.ceil_le.mpr (by exact_mod_cast le_of_lt (not_le.mp hx))
    omega

-- Closed-form aspect ratios of the concrete boxes used below.

theorem aspect_unitBox : aspect_ratio unitBox = 1 / 2 := by
  simp only [aspect_ratio, lng_distance, lat_distance, lng_diff, lat_diff, avg_lat, radians,
    unitBox]
  have h0 : ((-1 : ℝ) + 1) / 2 * Real.pi / 180 = 0 := by ring
  rw [h0, Real.cos_zero]
  norm_num

theorem aspect_thinBox : aspect_ratio thinBox = 0.000000001 := by
  simp only [aspect_ratio, lng_distance, lat_distance, lng_diff, lat_diff, avg_lat, radians,
    thinBox]
  have h0 : ((-0.5 : ℝ) + 0.5) / 2 * Real.pi / 180 = 0 := by ring
  rw [h0, Real.cos_zero]
  norm_num

theorem aspect_polarBox : aspect_ratio polarBox = -1 := by
  simp only [aspect_ratio, lng_distance, lat_distance, lng_diff, lat_diff, avg_lat, radians,
    polarBox]
  have h0 : ((179.5 : ℝ) + 180.5) / 2 * Real.pi / 180 = Real.pi := by ring
  rw [h0, Real.cos_pi]
  norm_num

/-- C2 counterexample: for the box `(0, -1, 1, 1)` (aspect ratio exactly
`1/2`) and height `3`, the code computes width `int(1.5) = 1`, while
half-up rounding of the same product gives `2`: the computed width is the
truncation of the product, not its nearest rounding. -/
theorem c2_counterexample :
    widthPre unitBox 3 = 1 ∧ roundHalfUp ((3 : ℝ) * aspect_ratio unitBox) = 2 := by
  rw [widthPre, roundHalfUp, aspect_unitBox]
  constructor
  · rw [pytrunc_of_nonneg (by push_cast; norm_num)]
    rw [Int.floor_eq_iff]
    push_cast
    norm_num
  · rw [Int.floor_eq_iff]
    push_cast
    norm_num

/-- C2, amended: the computed width is the truncation of
`height * aspect_ratio` toward zero; for a nonnegative product it is the
unique integer `w` with `w ≤ height * aspect_ratio < w + 1` (the floor),
not the half-up rounding. -/
theorem c2_theorem (b : Box) (h : ℤ) (hnn : 0 ≤ (h : ℝ) * aspect_ratio b) :
    (widthPre b h : ℝ) ≤ (h : ℝ) * aspect_ratio b ∧
      (h : ℝ) * aspect_ratio b < (widthPre b h : ℝ) + 1 := by
  rw [widthPre, pytrunc_of_nonneg hnn]
  exact ⟨Int.floor_le _, Int.lt_floor_add_one _⟩

/-- Witness for `c2_theorem` at the box `(0, -1, 1, 1)` and height `3`. -/
theorem c2_theorem_witness :
    0 ≤ ((3 : ℤ) : ℝ) * aspect_ratio unitBox ∧
      ((widthPre unitBox 3 : ℝ) ≤ ((3 : ℤ) : ℝ) * aspect_ratio unitBox ∧
        ((3 : ℤ) : ℝ) * aspect_ratio unitBox < (widthPre unitBox 3 : ℝ) + 1) := by
  have hnn : 0 ≤ ((3 : ℤ) : ℝ) * aspect_ratio unitBox := by
    rw [aspect_unitBox]; push_cast; norm_num
  exact ⟨hnn, c2_theorem unitBox 3 hnn⟩

/-- C1 counterexample: both boxes satisfy `lat1 > lat0` and `lng1 > lng0`,
and the height `512` is positive, yet for the thin box the final width is
`0` (not positive), and for the box centred on mean latitude `180` the
final width is negative. -/
theorem c1_counterexample :
    (thinBox.lat0 < thinBox.lat1 ∧ thinBox.lng0 < thinBox.lng1 ∧
        finalWidth thinBox 512 = 0) ∧
      (polarBox.lat0 < polarBox.lat1 ∧ polarBox.lng0 < polarBox.lng1 ∧
        finalWidth polarBox 512 < 0) := by
  have hthin : widthPre thinBox 512 = 0 := by
    rw [widthPre, aspect_thinBox]
    rw [pytrunc_of_nonneg (by push_cast; norm_num)]
    rw [Int.floor_eq_iff]
    push_cast
    norm_num
  have hpolar : widthPre polarBox 512 = -512 := by
    rw [widthPre, aspect_polarBox]
    rw [pytrunc_of_neg (by push_cast; norm_num)]
    have : ((512 : ℤ) : ℝ) * (-1) = ((-512 : ℤ) : ℝ) := by push_cast; ring
    rw [this, Int.ceil_intCast]
  refine ⟨⟨by norm_num [thinBox], by norm_num [thinBox], ?_⟩,
    ⟨by norm_num [polarBox], by norm_num [polarBox], ?_⟩⟩
  · rw [finalWidth, hthin]; norm_num
  · rw [finalWidth, hpolar]; norm_num

/-- C1, amended: for a box with `lat1 > lat0`, `lng1 > lng0`, both
latitudes within `[-90, 90]`, and positive height, the final width and
height are nonnegative integers (width `0` is possible for very thin
boxes) and the final width is at most `2500`. -/
theorem c1_theorem (b : Box) (h : ℤ) (hlat : b.lat0 < b.lat1) (hlng : b.lng0 < b.lng1)
    (hh : 0 < h) (hlo : -90 ≤ b.lat0) (hhi : b.lat1 ≤ 90) :
    0 ≤ finalWidth b h ∧ finalWidth b h ≤ 2500 ∧ 0 ≤ finalHeight b h := by
  have hπ := Real.pi_pos
  have havg1 : -90 ≤ avg_lat b := by rw [avg_lat]; linarith
  have havg2 : avg_lat b ≤ 90 := by rw [avg_lat]; linarith
  have hrad1 : -(Real.pi / 2) ≤ radians (avg_lat b) := by
    rw [radians]
    nlinarith [mul_le_mul_of_nonneg_right havg1 (le_of_lt hπ)]
  have hrad2 : radians (avg_lat b) ≤ Real.pi / 2 := by
    rw [radians]
    nlinarith [mul_le_mul_of_nonneg_right havg2 (le_of_lt hπ)]
  have hcos : 0 ≤ Real.cos (radians (avg_lat b)) :=
    Real.cos_nonneg_of_mem_Icc ⟨hrad1, hrad2⟩
  have hlatd : 0 < lat_distance b := by
    rw [lat_distance, lat_diff]; nlinarith
  have hlngd : 0 ≤ lng_distance b := by
    rw [lng_distance, lng_diff]
    have : (0 : ℝ) ≤ (b.lng1 - b.lng0) * 111 := by nlinarith
    exact mul_nonneg this hcos
  have hr : 0 ≤ aspect_ratio b := div_nonneg hlngd (le_of_lt hlatd)
  have hhr : (0 : ℝ) ≤ (h : ℝ) := by exact_mod_cast le_of_lt hh
  have hwp : 0 ≤ widthPre b h := pytrunc_nonneg (mul_nonneg hhr hr)
  refine ⟨?_, ?_, ?_⟩
  · rw [finalWidth]; split <;> omega
  · rw [finalWidth]; split <;> omega
  · rw [finalHeight]
    split
    · exact pytrunc_nonneg (div_nonneg (by norm_num) hr)
    · omega

/-- Witness for `c1_theorem` at the default Prague box and height `512`. -/
theorem c1_theorem_witness :
    (pragueBox.lat0 < pragueBox.lat1 ∧ pragueBox.lng0 < pragueBox.lng1 ∧
        (0 : ℤ) < 512 ∧ -90 ≤ pragueBox.lat0 ∧ pragueBox.lat1 ≤ 90) ∧
      (0 ≤ finalWidth pragueBox 512 ∧ finalWidth pragueBox 512 ≤ 2500 ∧
        0 ≤ finalHeight pragueBox 512) := by
  refine ⟨⟨by norm_num [pragueBox], by norm_num [pragueBox], by norm_num,
    by norm_num [pragueBox], by norm_num [pragueBox]⟩, ?_⟩
  exact c1_theorem pragueBox 512 (by norm_num [pragueBox]) (by norm_num [pragueBox])
    (by norm_num) (by norm_num [pragueBox]) (by norm_num [pragueBox])

theorem aspect_wideBox : aspect_ratio wideBox = 5000 / 1999 := by
  simp only [aspect_ratio, lng_distance, lat_distance, lng_diff, lat_diff, avg_lat, radians,
    wideBox]
  have h0 : ((-0.9995 : ℝ) + 0.9995) / 2 * Real.pi / 180 = 0 := by ring
  rw [h0, Real.cos_zero]
  norm_num

theorem widthPre_wideBox : widthPre wideBox 1001 = 2503 := by
  rw [widthPre, aspect_wideBox]
  rw [pytrunc_of_nonneg (by push_cast; norm_num)]
  rw [Int.floor_eq_iff]
  push_cast
  norm_num

/-- C3 counterexample: for the box `(0, -0.9995, 5, 0.9995)` (aspect ratio
exactly `5000/1999`) and height `1001`, the pre-clamp width `2503` exceeds
`2500`, and the recomputed height is `int(2500 / aspect_ratio) =
int(999.5) = 999`, while half-up rounding of `2500 / aspect_ratio` gives
`1000`: the recomputation truncates, it does not round to nearest. -/
theorem c3_counterexample :
    2500 < widthPre wideBox 1001 ∧ finalHeight wideBox 1001 = 999 ∧
      roundHalfUp ((2500 : ℝ) / aspect_ratio wideBox) = 1000 := by
  have hpre : 2500 < widthPre wideBox 1001 := by rw [widthPre_wideBox]; norm_num
  refine ⟨hpre, ?_, ?_⟩
  · rw [finalHeight, if_pos hpre, aspect_wideBox]
    rw [pytrunc_of_nonneg (by norm_num)]
    rw [Int.floor_eq_iff]
    push_cast
    norm_num
  · rw [roundHalfUp, aspect_wideBox]
    rw [Int.floor_eq_iff]
    push_cast
    norm_num

/-- C3, amended: when the pre-clamp width exceeds `2500` (and the height
is positive), the final width is exactly `2500` and the final height is
recomputed as the truncation toward zero of `2500 / aspect_ratio` (not
its half-up rounding); the user-supplied height is overridden only in
this branch; and the resulting `width / height` ratio brackets the
original aspect ratio within one rounding step:
`2500 / (height + 1) < aspect_ratio ≤ 2500 / height`. -/
theorem c3_theorem (b : Box) (h : ℤ) (hpre : 2500 < widthPre b h) (hh : 0 < h) :
    finalWidth b h = 2500 ∧
      finalHeight b h = pytrunc ((2500 : ℝ) / aspect_ratio b) ∧
      (∀ h2 : ℤ, widthPre b h2 ≤ 2500 →
        finalHeight b h2 = h2 ∧ finalWidth b h2 = widthPre b h2) ∧
      (1 ≤ finalHeight b h →
        aspect_ratio b ≤ 2500 / (finalHeight b h : ℝ) ∧
          2500 / ((finalHeight b h : ℝ) + 1) < aspect_ratio b) := by
  have hx : (2500 : ℝ) < (h : ℝ) * aspect_ratio b :=
    lt_of_lt_pytrunc (by norm_num) hpre
  have hrpos : 0 < aspect_ratio b := by
    rcases lt_trichotomy (aspect_ratio b) 0 with hneg | hzero | hpos
    · exfalso
      have hhr : (0 : ℝ) < (h : ℝ) := by exact_mod_cast hh
      nlinarith
    · exfalso; rw [hzero] at hx; simp at hx; linarith
    · exact hpos
  refine ⟨by rw [finalWidth, if_pos hpre], by rw [finalHeight, if_pos hpre], ?_, ?_⟩
  · intro h2 hle
    exact ⟨by rw [finalHeight, if_neg (not_lt.mpr hle)],
      by rw [finalWidth, if_neg (not_lt.mpr hle)]⟩
  · intro hge1
    have hH : finalHeight b h = ⌊(2500 : ℝ) / aspect_ratio b⌋ := by
      rw [finalHeight, if_pos hpre,
        pytrunc_of_nonneg (div_nonneg (by norm_num) (le_of_lt hrpos))]
    have h1 : ((finalHeight b h : ℤ) : ℝ) ≤ 2500 / aspect_ratio b := by
      rw [hH]; exact Int.floor_le _
    have h2 : 2500 / aspect_ratio b < ((finalHeight b h : ℤ) : ℝ) + 1 := by
      rw [hH]; exact Int.lt_floor_add_one _
    have hHpos : (0 : ℝ) < ((finalHeight b h : ℤ) : ℝ) := by
      exact_mod_cast lt_of_lt_of_le zero_lt_one hge1
    constructor
    · rw [le_div_iff₀ hHpos]
      have h3 := (le_div_iff₀ hrpos).mp h1
      nlinarith
    · rw [div_lt_iff₀ (by linarith : (0 : ℝ) < ((finalHeight b h : ℤ) : ℝ) + 1)]
      have h4 := (div_lt_iff₀ hrpos).mp h2
      nlinarith

/-- Witness for `c3_theorem` at the box `(0, -0.9995, 5, 0.9995)` and
height `1001`. -/
theorem c3_theorem_witness :
    (2500 < widthPre wideBox 1001 ∧ (0 : ℤ) < 1001) ∧
      (finalWidth wideBox 1001 = 2500 ∧
        finalHeight wideBox 1001 = pytrunc ((2500 : ℝ) / aspect_ratio wideBox) ∧
        (∀ h2 : ℤ, widthPre wideBox h2 ≤ 2500 →
          finalHeight wideBox h2 = h2 ∧ finalWidth wideBox h2 = widthPre wideBox h2) ∧
        (1 ≤ finalHeight wideBox 1001 →
          aspect_ratio wideBox ≤ 2500 / (finalHeight wideBox 1001 : ℝ) ∧
            2500 / ((finalHeight wideBox 1001 : ℝ) + 1) < aspect_ratio wideBox)) := by
  have hpre : 2500 < widthPre wideBox 1001 := by rw [widthPre_wideBox]; norm_num
  exact ⟨⟨hpre, by norm_num⟩, c3_theorem wideBox 1001 hpre (by norm_num)⟩

/-- C4, confirmed: with an empty client ID or client secret the program
prints the guidance lines and exits; the trace is exactly the two
guidance prints followed by `exit()`, so neither the token exchange nor
the imagery POST is ever issued. -/
theorem c4_theorem (cid cs : String) (a : Args) (o : Oracle)
    (h : cid.length = 0 ∨ cs.length = 0) :
    run cid cs a o = [Event.printGuidance, Event.exitProgram] ∧
      Event.fetchToken ∉ run cid cs a o ∧
      ∀ p, Event.imageryPost p ∉ run cid cs a o := by
  have hrun : run cid cs a o = [Event.printGuidance, Event.exitProgram] := by
    rw [run, if_pos h]
  refine ⟨hrun, ?_, ?_⟩
  · rw [hrun]; simp
  · intro p; rw [hrun]; simp

/-- Witness for `c4_theorem`: empty client ID, nonempty secret. -/
theorem c4_theorem_witness :
    ("".length = 0 ∨ "s".length = 0) ∧
      (run "" "s" baseArgs baseOracle = [Event.printGuidance, Event.exitProgram] ∧
        Event.fetchToken ∉ run "" "s" baseArgs baseOracle ∧
        ∀ p, Event.imageryPost p ∉ run "" "s" baseArgs baseOracle) :=
  ⟨Or.inl rfl, c4_theorem "" "s" baseArgs baseOracle (Or.inl rfl)⟩

/-- C5 counterexample: the evalscript path `"x"` is given (non-empty) and
its file is unreadable, yet the program prints no fallback warning: the
custom-script branch requires the path length to exceed one, so a
one-character path is silently skipped. -/
theorem c5_counterexample :
    oneCharArgs.evalscript ≠ "" ∧ baseOracle.readScript = none ∧
      Event.printScriptWarning oneCharArgs.evalscript ∉
        run "a" "b" oneCharArgs baseOracle := by
  refine ⟨by simp [oneCharArgs, baseArgs], rfl, ?_⟩
  have hrun : run "a" "b" oneCharArgs baseOracle =
      [Event.fetchToken, Event.exitProgram] := by
    rw [run, if_neg (by decide)]
    rw [scriptEvents, if_neg (by decide)]
    simp [oneCharArgs, baseArgs, baseOracle]
  rw [hrun]
  simp

/-- C5, amended: for a custom evalscript path of length at least two whose
file cannot be read, the program prints the fallback warning, continues
to the token exchange (no abort), and the effective evalscript is the
built-in default with the brightness substitution applied; a
readable-but-empty file is accepted as-is (effective script `""`).
(A given path of length exactly one is silently skipped, see C10.) -/
theorem c5_theorem (cid cs : String) (a : Args) (o : Oracle)
    (h1 : cid.length ≠ 0) (h2 : cs.length ≠ 0) (h3 : 1 < a.evalscript.length) :
    (o.readScript = none →
      Event.printScriptWarning a.evalscript ∈ run cid cs a o ∧
        Event.fetchToken ∈ run cid cs a o ∧
        effectiveScript a o = substitutedDefault a.jas) ∧
      (o.readScript = some "" → effectiveScript a o = "") := by
  constructor
  · intro hnone
    have hrun : run cid cs a o =
        scriptEvents a o ++ [Event.fetchToken] ++
          (if a.ukaztoken then
            (o.token.map fun kv => Event.printTokenEntry kv.1 kv.2) ++ [Event.exitProgram]
          else if lat_distance a.box = 0 then
            [Event.raiseZeroDivisionError]
          else
            Event.printDimensions (finalWidth a.box a.vyska) (finalHeight a.box a.vyska) ::
              Event.imageryPost (buildParams a o) ::
                (if o.respStatus = 200 then
                  [Event.printSaving a.soubor, Event.writeFile a.soubor o.respContent]
                else
                  [Event.printHttpError o.respStatus o.respText])) := by
      rw [run, if_neg (not_or.mpr ⟨h1, h2⟩)]
    constructor
    · rw [hrun]
      have hse : scriptEvents a o =
          [Event.openScript a.evalscript, Event.printScriptWarning a.evalscript] := by
        rw [scriptEvents, if_pos h3, hnone]
      rw [hse]
      simp
    constructor
    · rw [hrun]; simp
    · rw [effectiveScript, if_pos h3, hnone]
  · intro hsome
    rw [effectiveScript, if_pos h3, hsome]

/-- Witness for `c5_theorem`: path `"ab"`, unreadable in `baseOracle` and
readable-but-empty in `emptyFileOracle`. -/
theorem c5_theorem_witness :
    ("a".length ≠ 0 ∧ "b".length ≠ 0 ∧ 1 < twoCharArgs.evalscript.length) ∧
      (Event.printScriptWarning twoCharArgs.evalscript ∈
          run "a" "b" twoCharArgs baseOracle ∧
        effectiveScript twoCharArgs baseOracle =
          substitutedDefault twoCharArgs.jas ∧
        effectiveScript twoCharArgs emptyFileOracle = "") := by
  have h3 : 1 < twoCharArgs.evalscript.length := by decide
  have hmain := c5_theorem "a" "b" twoCharArgs baseOracle (by decide) (by decide) h3
  have hmain2 := c5_theorem "a" "b" twoCharArgs emptyFileOracle (by decide) (by decide) h3
  exact ⟨⟨by decide, by decide, h3⟩,
    ⟨(hmain.1 rfl).1, (hmain.1 rfl).2.2, hmain2.2 rfl⟩⟩

/-- C10, confirmed: for a custom-evalscript argument of length exactly
one, the program never attempts to open the file and prints no warning —
the effective evalscript is silently the built-in default with the
brightness substitution — regardless of whether a readable file of that
name exists (the oracle is universally quantified). -/
theorem c10_theorem (cid cs : String) (a : Args) (o : Oracle)
    (h3 : a.evalscript.length = 1) :
    (∀ p, Event.openScript p ∉ run cid cs a o) ∧
      (∀ p, Event.printScriptWarning p ∉ run cid cs a o) ∧
      effectiveScript a o = substitutedDefault a.jas := by
  have hlen : ¬1 < a.evalscript.length := by omega
  have hse : scriptEvents a o = [] := by rw [scriptEvents, if_neg hlen]
  refine ⟨?_, ?_, by rw [effectiveScript, if_neg hlen]⟩ <;> intro p <;>
    · rw [run]
      split
      · simp
      · rw [hse]
        simp only [List.nil_append, List.mem_append, List.mem_cons, List.mem_singleton]
        split
        · simp [List.mem_map]
        · split
          · simp
          · split <;> simp

/-- Witness for `c10_theorem`: the one-character path `"x"` with an oracle
whose file read would succeed. -/
theorem c10_theorem_witness :
    oneCharArgs.evalscript.length = 1 ∧
      ((∀ p, Event.openScript p ∉ run "a" "b" oneCharArgs emptyFileOracle) ∧
        (∀ p, Event.printScriptWarning p ∉ run "a" "b" oneCharArgs emptyFileOracle) ∧
        effectiveScript oneCharArgs emptyFileOracle =
          substitutedDefault oneCharArgs.jas) :=
  ⟨by decide, c10_theorem "a" "b" oneCharArgs emptyFileOracle (by decide)⟩

/-- C6, confirmed: for every run that reaches the imagery POST, on HTTP
200 the trace writes exactly the response body bytes to the configured
output file (the `wb` open truncates any existing file of that name); on
any other status no file is written at all and the status code together
with the response body text is printed. -/
theorem c6_theorem (cid cs : String) (a : Args) (o : Oracle)
    (h1 : cid.length ≠ 0) (h2 : cs.length ≠ 0) (h3 : a.ukaztoken = false)
    (h4 : lat_distance a.box ≠ 0) :
    (o.respStatus = 200 →
      Event.writeFile a.soubor o.respContent ∈ run cid cs a o ∧
        Event.printSaving a.soubor ∈ run cid cs a o) ∧
      (o.respStatus ≠ 200 →
        (∀ n c, Event.writeFile n c ∉ run cid cs a o) ∧
          Event.printHttpError o.respStatus o.respText ∈ run cid cs a o) := by
  have hrun : run cid cs a o =
      scriptEvents a o ++ [Event.fetchToken] ++
        (Event.printDimensions (finalWidth a.box a.vyska) (finalHeight a.box a.vyska) ::
          Event.imageryPost (buildParams a o) ::
            (if o.respStatus = 200 then
              [Event.printSaving a.soubor, Event.writeFile a.soubor o.respContent]
            else
              [Event.printHttpError o.respStatus o.respText])) := by
    rw [run, if_neg (not_or.mpr ⟨h1, h2⟩), h3]
    rw [if_neg (by simp), if_neg h4]
  constructor
  · intro h200
    rw [hrun, if_pos h200]
    constructor <;> simp
  · intro hne
    rw [hrun, if_neg hne]
    refine ⟨?_, by simp⟩
    intro n c
    rw [scriptEvents]
    split
    · rcases o.readScript with _ | s <;> simp
    · simp

/-- Witness for `c6_theorem`: both the HTTP-200 case (`baseOracle`) and
the HTTP-500 case (`failOracle`) at the default arguments. -/
theorem c6_theorem_witness :
    ("a".length ≠ 0 ∧ "b".length ≠ 0 ∧ baseArgs.ukaztoken = false ∧
        lat_distance baseArgs.box ≠ 0) ∧
      (Event.writeFile baseArgs.soubor baseOracle.respContent ∈
          run "a" "b" baseArgs baseOracle ∧
        (∀ n c, Event.writeFile n c ∉ run "a" "b" baseArgs failOracle) ∧
        Event.printHttpError failOracle.respStatus failOracle.respText ∈
          run "a" "b" baseArgs failOracle) := by
  have h4 : lat_distance baseArgs.box ≠ 0 := by
    show lat_distance pragueBox ≠ 0
    norm_num [lat_distance, lat_diff, pragueBox]
  have hok := c6_theorem "a" "b" baseArgs baseOracle (by decide) (by decide) rfl h4
  have hfail := c6_theorem "a" "b" baseArgs failOracle (by decide) (by decide) rfl h4
  exact ⟨⟨by decide, by decide, rfl, h4⟩,
    ⟨(hok.1 rfl).1, (hfail.2 (by decide)).1, (hfail.2 (by decide)).2⟩⟩

/-- C8, confirmed (with `isoformat` modelled from the spec): the payload's
time-range filter runs from `now - 7 days` to `now`, both instants taken
from the single `datetime.now(timezone.utc)` call and serialized by
`isoformat`, and both serialized endpoints carry the UTC offset
`+00:00`; seven days is exactly `604800000000` microseconds. -/
theorem c8_theorem (a : Args) (o : Oracle) :
    (buildParams a o).timeFrom = isoformat (o.nowMicros - 7 * 86400000000) ∧
      (buildParams a o).timeTo = isoformat o.nowMicros ∧
      (7 * 86400000000 : ℤ) = 604800000000 ∧
      (∃ s, (buildParams a o).timeFrom = s ++ "+00:00") ∧
      ∃ s, (buildParams a o).timeTo = s ++ "+00:00" :=
  ⟨rfl, rfl, by norm_num, ⟨isoBody (o.nowMicros - 7 * 86400000000), rfl⟩,
    ⟨isoBody o.nowMicros, rfl⟩⟩

/-- C9 counterexample: the box `(1, 0.5, 0, -0.5)` is reversed on both
axes (`lat1 < lat0` and `lng1 < lng0`), yet its aspect ratio is `1`,
which is positive — refuting the claim that every reversed box yields a
negative ratio. -/
theorem c9_counterexample :
    bothRevBox.lat1 < bothRevBox.lat0 ∧ bothRevBox.lng1 < bothRevBox.lng0 ∧
      aspect_ratio bothRevBox = 1 := by
  refine ⟨by norm_num [bothRevBox], by norm_num [bothRevBox], ?_⟩
  simp only [aspect_ratio, lng_distance, lat_distance, lng_diff, lat_diff, avg_lat, radians,
    bothRevBox]
  have h0 : ((0.5 : ℝ) + -0.5) / 2 * Real.pi / 180 = 0 := by ring
  rw [h0, Real.cos_zero]
  norm_num

/-- C9, amended: a box reversed on exactly one axis (with a positive
cosine correction) silently yields a negative aspect ratio, with no
validation; a box reversed on both axes yields a positive ratio; and a
degenerate box (`lat1 = lat0`) makes the program abort with an uncaught
`ZeroDivisionError` at the division — it does not silently produce an
infinite ratio, and no imagery request is issued. -/
theorem c9_theorem (b : Box) :
    (lat_diff b < 0 → 0 < lng_diff b → 0 < Real.cos (radians (avg_lat b)) →
      aspect_ratio b < 0) ∧
      (0 < lat_diff b → lng_diff b < 0 → 0 < Real.cos (radians (avg_lat b)) →
        aspect_ratio b < 0) ∧
      (lat_distance b = 0 → ∀ (cid cs : String) (a : Args) (o : Oracle),
        cid.length ≠ 0 → cs.length ≠ 0 → a.ukaztoken = false → a.box = b →
        Event.raiseZeroDivisionError ∈ run cid cs a o ∧
          ∀ p, Event.imageryPost p ∉ run cid cs a o) := by
  refine ⟨?_, ?_, ?_⟩
  · intro hlat hlng hcos
    have hnum : 0 < lng_distance b := by
      rw [lng_distance]
      exact mul_pos (by nlinarith) hcos
    have hden : lat_distance b < 0 := by rw [lat_distance]; nlinarith
    exact div_neg_of_pos_of_neg hnum hden
  · intro hlat hlng hcos
    have hnum : lng_distance b < 0 := by
      rw [lng_distance]
      exact mul_neg_of_neg_of_pos (by nlinarith) hcos
    have hden : 0 < lat_distance b := by rw [lat_distance]; nlinarith
    exact div_neg_of_neg_of_pos hnum hden
  · intro hzero cid cs a o h1 h2 htok hbox
    have hz : lat_distance a.box = 0 := by rw [hbox]; exact hzero
    have hrun : run cid cs a o =
        scriptEvents a o ++ [Event.fetchToken] ++ [Event.raiseZeroDivisionError] := by
      rw [run, if_neg (not_or.mpr ⟨h1, h2⟩), htok]
      rw [if_neg (by simp), if_pos hz]
    constructor
    · rw [hrun]; simp
    · intro p
      rw [hrun, scriptEvents]
      split
      · rcases o.readScript with _ | s <;> simp
      · simp

/-- Witness for `c9_theorem`: the lat-reversed box `(0, 0.5, 1, -0.5)`
(negative ratio) and the degenerate box `(0, 1, 1, 1)` (uncaught
`ZeroDivisionError`, no imagery POST). -/
theorem c9_theorem_witness :
    (lat_diff revLatBox < 0 ∧ 0 < lng_diff revLatBox ∧
        0 < Real.cos (radians (avg_lat revLatBox)) ∧ aspect_ratio revLatBox < 0) ∧
      (lat_distance degBox = 0 ∧
        Event.raiseZeroDivisionError ∈ run "a" "b" degArgs baseOracle ∧
        ∀ p, Event.imageryPost p ∉ run "a" "b" degArgs baseOracle) := by
  have hc : Real.cos (radians (avg_lat revLatBox)) = 1 := by
    simp only [avg_lat, radians, revLatBox]
    have h0 : ((0.5 : ℝ) + -0.5) / 2 * Real.pi / 180 = 0 := by ring
    rw [h0, Real.cos_zero]
  have h1 : lat_diff revLatBox < 0 := by norm_num [lat_diff, revLatBox]
  have h2 : 0 < lng_diff revLatBox := by norm_num [lng_diff, revLatBox]
  have h3 : 0 < Real.cos (radians (avg_lat revLatBox)) := by rw [hc]; norm_num
  have h4 : lat_distance degBox = 0 := by
    simp [lat_distance, lat_diff, degBox]
  have hdeg := (c9_theorem degBox).2.2 h4 "a" "b" degArgs baseOracle
    (by decide) (by decide) rfl rfl
  exact ⟨⟨h1, h2, h3, (c9_theorem revLatBox).1 h1 h2 h3⟩, ⟨h4, hdeg.1, hdeg.2⟩⟩

-- Numeric bounds on the cosine correction for the Prague box, obtained
-- from the quartic Taylor bound at one thirty-second of the angle and
-- five applications of the double-angle formula.

theorem cos_sq_dbl {u a b : ℝ} (ha : 0 ≤ a) (h1 : a ≤ Real.cos u)
    (h2 : Real.cos u ≤ b) :
    2 * a ^ 2 - 1 ≤ Real.cos (2 * u) ∧ Real.cos (2 * u) ≤ 2 * b ^ 2 - 1 := by
  rw [Real.cos_two_mul]
  have hcnn : 0 ≤ Real.cos u := le_trans ha h1
  constructor
  · nlinarith
  · nlinarith

theorem cos_prague_bounds :
    (0.6385628909 : ℝ) ≤ Real.cos (radians (avg_lat pragueBox)) ∧
      Real.cos (radians (avg_lat pragueBox)) ≤ 0.6386162322 := by
  have hπ1 : (3.141592 : ℝ) < Real.pi := Real.pi_gt_d6
  have hπ2 : Real.pi < 3.141593 := Real.pi_lt_d6
  have havg : avg_lat pragueBox = 503117 / 10000 := by
    norm_num [avg_lat, pragueBox]
  have hxt : radians (avg_lat pragueBox) =
      2 * (2 * (2 * (2 * (2 * (503117 * Real.pi / 57600000))))) := by
    rw [radians, havg]; ring
  have ht1 : (0.0274407698 : ℝ) ≤ 503117 * Real.pi / 57600000 := by linarith
  have ht2 : 503117 * Real.pi / 57600000 ≤ 0.0274407786 := by linarith
  have htnn : (0 : ℝ) ≤ 503117 * Real.pi / 57600000 := by linarith
  have habs : |503117 * Real.pi / 57600000| ≤ 1 := by
    rw [abs_of_nonneg htnn]; linarith
  have hb := Real.cos_bound habs
  rw [abs_of_nonneg htnn, abs_le] at hb
  have ht2sq : (503117 * Real.pi / 57600000) ^ 2 ≤ (0.0274407786 : ℝ) ^ 2 := by
    nlinarith
  have ht4 : (503117 * Real.pi / 57600000) ^ 4 ≤ (0.0274407786 : ℝ) ^ 4 := by
    nlinarith [sq_nonneg (503117 * Real.pi / 57600000), ht2sq]
  have ht1sq : ((0.0274407698 : ℝ)) ^ 2 ≤ (503117 * Real.pi / 57600000) ^ 2 := by
    nlinarith
  have s0 : (0.9996234723 : ℝ) ≤ Real.cos (503117 * Real.pi / 57600000) ∧
      Real.cos (503117 * Real.pi / 57600000) ≤ 0.9996235317 := by
    constructor
    · nlinarith [hb.1]
    · nlinarith [hb.2]
  have s1 : (0.9984941727 : ℝ) ≤ Real.cos (2 * (503117 * Real.pi / 57600000)) ∧
      Real.cos (2 * (503117 * Real.pi / 57600000)) ≤ 0.9984944103 := by
    have h := cos_sq_dbl (by norm_num) s0.1 s0.2
    exact ⟨le_trans (by norm_num) h.1, le_trans h.2 (by norm_num)⟩
  have s2 : (0.9939812258 : ℝ) ≤
      Real.cos (2 * (2 * (503117 * Real.pi / 57600000))) ∧
      Real.cos (2 * (2 * (503117 * Real.pi / 57600000))) ≤ 0.9939821749 := by
    have h := cos_sq_dbl (by norm_num) s1.1 s1.2
    exact ⟨le_trans (by norm_num) h.1, le_trans h.2 (by norm_num)⟩
  have s3 : (0.9759973544 : ℝ) ≤
      Real.cos (2 * (2 * (2 * (503117 * Real.pi / 57600000)))) ∧
      Real.cos (2 * (2 * (2 * (503117 * Real.pi / 57600000)))) ≤ 0.9760011281 := by
    have h := cos_sq_dbl (by norm_num) s2.1 s2.2
    exact ⟨le_trans (by norm_num) h.1, le_trans h.2 (by norm_num)⟩
  have s4 : (0.9051416715 : ℝ) ≤
      Real.cos (2 * (2 * (2 * (2 * (503117 * Real.pi / 57600000))))) ∧
      Real.cos (2 * (2 * (2 * (2 * (503117 * Real.pi / 57600000))))) ≤ 0.9051564042 := by
    have h := cos_sq_dbl (by norm_num) s3.1 s3.2
    exact ⟨le_trans (by norm_num) h.1, le_trans h.2 (by norm_num)⟩
  have s5 : (0.6385628909 : ℝ) ≤
      Real.cos (2 * (2 * (2 * (2 * (2 * (503117 * Real.pi / 57600000)))))) ∧
      Real.cos (2 * (2 * (2 * (2 * (2 * (503117 * Real.pi / 57600000)))))) ≤
        0.6386162322 := by
    have h := cos_sq_dbl (by norm_num) s4.1 s4.2
    exact ⟨le_trans (by norm_num) h.1, le_trans h.2 (by norm_num)⟩
  rw [hxt]
  exact s5

/-- C7, confirmed: for the default Prague box and height `512` the
geometry is a pure function of its inputs, hence deterministic across
runs, and the computed width is the golden value `1024`; the same value
is obtained whether the product `height * aspect_ratio` (about
`1024.126`) is truncated as the code does or rounded half-up as the
spec's formula states. -/
theorem c7_theorem :
    widthPre pragueBox 512 = 1024 ∧ finalWidth pragueBox 512 = 1024 ∧
      roundHalfUp ((512 : ℝ) * aspect_ratio pragueBox) = 1024 := by
  obtain ⟨hc1, hc2⟩ := cos_prague_bounds
  have har : (512 : ℝ) * aspect_ratio pragueBox =
      139520 / 87 * Real.cos (radians (avg_lat pragueBox)) := by
    rw [aspect_ratio, lng_distance, lat_distance, lng_diff, lat_diff]
    show (512 : ℝ) * ((15.2252 - 15.0617) * 111 * Real.cos (radians (avg_lat pragueBox)) /
        ((50.3378 - 50.2856) * 111)) = _
    field_simp
    ring
  have hz1 : (1024 : ℝ) ≤ 512 * aspect_ratio pragueBox := by
    rw [har]; linarith
  have hz2 : (512 : ℝ) * aspect_ratio pragueBox < 1024.5 := by
    rw [har]; linarith
  have hwp : widthPre pragueBox 512 = 1024 := by
    rw [widthPre]
    have hcast : ((512 : ℤ) : ℝ) * aspect_ratio pragueBox =
        (512 : ℝ) * aspect_ratio pragueBox := by push_cast; ring
    rw [hcast, pytrunc_of_nonneg (by linarith)]
    rw [Int.floor_eq_iff]
    push_cast
    constructor <;> linarith
  refine ⟨hwp, ?_, ?_⟩
  · rw [finalWidth, hwp]; norm_num
  · rw [roundHalfUp, Int.floor_eq_iff]
    push_cast
    constructor <;> linarith
